import Mathlib

/-!
Shallow embedding of `homework.py` / `exceptions.py` (kiv-i/homework_bot),
with theorems settling the specification's claims about it.

The external world (HTTP responses, the Telegram transport, the clock at
startup) is supplied as explicit oracle inputs; the functions below are
line-by-line translations of the Python source.
-/

set_option maxHeartbeats 1000000

/-- Python values, as far as this program inspects them: the decoded JSON
payload and the submission records are built from these. -/
inductive PyValue where
  | pyNone
  | pyBool (b : Bool)
  | pyInt (n : Int)
  | pyStr (s : String)
  | pyList (xs : List PyValue)
  | pyDict (kvs : List (String × PyValue))

/-- Lookup in a Python dict (modelled as an association list; Python dicts
have no duplicate keys, the first match is the binding). -/
def dictGet {α : Type} (kvs : List (String × α)) (k : String) : Option α :=
  match kvs with
  | [] => none
  | (k0, v) :: rest => if k0 = k then some v else dictGet rest k

/-- The exceptions the program raises: built-ins (`TypeError`, `KeyError`,
`ConnectionError`, `json.JSONDecodeError`) and the two classes of
`exceptions.py` (`FailedRequest`, `NoHomework`).  Each carries the message
string it was constructed with. -/
inductive PyExc where
  | typeError (msg : String)
  | keyError (msg : String)
  | noHomework (msg : String)
  | connectionError (msg : String)
  | failedRequest (msg : String)
  | jsonDecodeError (msg : String)
deriving DecidableEq

/-- The single-quote character (written by code point to keep it out of
string literals). -/
def squote : Char := Char.ofNat 39

/-- Membership test of a character in a string (Python `c in s`). -/
def hasChar (s : String) (c : Char) : Bool := s.data.contains c

/-- Escape single quotes, as Python repr does inside a single-quoted string. -/
def escapeSingleQuotes : List Char → List Char
  | [] => []
  | c :: cs =>
      if c = squote then '\\' :: squote :: escapeSingleQuotes cs
      else c :: escapeSingleQuotes cs

/-- Python `repr` of a string: single-quoted with inner single quotes
escaped, except that a string containing a single quote but no double quote
is double-quoted.  (Backslash and control-character escaping is omitted:
no string this program builds contains them.) -/
def pyStrRepr (s : String) : String :=
  if hasChar s squote && !hasChar s '"' then "\"" ++ s ++ "\""
  else "\x27" ++ String.mk (escapeSingleQuotes s.data) ++ "\x27"

mutual

/-- Python `repr` of a value (containers render their elements with repr). -/
def pyRepr : PyValue → String
  | .pyNone => "None"
  | .pyBool b => if b then "True" else "False"
  | .pyInt n => toString n
  | .pyStr s => pyStrRepr s
  | .pyList xs => "[" ++ String.intercalate ", " (pyReprList xs) ++ "]"
  | .pyDict kvs => "\x7b" ++ String.intercalate ", " (pyReprDict kvs) ++ "\x7d"

/-- repr of each element of a list value. -/
def pyReprList : List PyValue → List String
  | [] => []
  | x :: xs => pyRepr x :: pyReprList xs

/-- repr of each `key: value` entry of a dict value. -/
def pyReprDict : List (String × PyValue) → List String
  | [] => []
  | (k, v) :: kvs => (pyStrRepr k ++ ": " ++ pyRepr v) :: pyReprDict kvs

end

/-- Python `str()` of a value, as an f-string renders it: identity on
strings, repr on everything else. -/
def pyStrOf : PyValue → String
  | .pyStr s => s
  | v => pyRepr v

/-- Python `str()` of an exception, as `f-string` interpolation renders it.
For a `KeyError` with one string argument Python shows the repr of that
argument; for the other classes (all with one string argument) it shows the
argument itself.  (`json.JSONDecodeError` appends position information
`: line .. column .. (char ..)`; that suffix is elided, no theorem below
inspects such a message.) -/
def excStr : PyExc → String
  | .typeError m => m
  | .keyError m => pyStrRepr m
  | .noHomework m => m
  | .connectionError m => m
  | .failedRequest m => m
  | .jsonDecodeError m => m

/-- `RETRY_PERIOD = 600` (homework.py line 21). -/
def RETRY_PERIOD : Nat := 600

/-- `ENDPOINT` (homework.py line 22). -/
def ENDPOINT : String := "https://practicum.yandex.ru/api/user_api/homework_statuses/"

/-- `HOMEWORK_VERDICTS` (homework.py lines 26-30). -/
def HOMEWORK_VERDICTS : List (String × String) :=
  [("approved", "Работа проверена: ревьюеру всё понравилось. Ура!"),
   ("reviewing", "Работа взята на проверку ревьюером."),
   ("rejected", "Работа проверена: у ревьюера есть замечания.")]

/-- The three secrets, as `os.getenv` delivers them at import time
(homework.py lines 17-19): `none` models an unset variable. -/
structure Config where
  PRACTICUM_TOKEN : Option String
  TELEGRAM_TOKEN : Option String
  TELEGRAM_CHAT_ID : Option String

/-- Python truthiness of an `os.getenv` result: `None` and the empty string
are falsy, every other string is truthy. -/
def truthyEnv : Option String → Bool
  | none => false
  | some s => if s = "" then false else true

/-- Result of `check_tokens` (homework.py lines 43-59): either all three
variables are truthy, or the function logs a critical message and the
process stops via `exit(1)`.  (The Python code iterates a `set` of the
three names, so which missing variable the log names is unspecified; the
exit behaviour does not depend on the order.) -/
inductive CheckTokensResult where
  | ok
  | exit1
deriving DecidableEq

/-- `check_tokens` (homework.py lines 43-59). -/
def check_tokens (cfg : Config) : CheckTokensResult :=
  if truthyEnv cfg.PRACTICUM_TOKEN && truthyEnv cfg.TELEGRAM_TOKEN
      && truthyEnv cfg.TELEGRAM_CHAT_ID then .ok
  else .exit1

/-- `send_message` (homework.py lines 62-70).  The transport outcome of
`bot.send_message` is the oracle argument: `.ok ()` when the call returns,
`.error e` when it raises.  On success the function returns `True`; on
failure it logs the error and falls off the end, returning `None` —
modelled as `Option Bool`, where `none` is Python's `None`.  The exception
is never re-raised. -/
def send_message (transport : Except String Unit) : Option Bool :=
  match transport with
  | .ok _ => some true
  | .error _ => none

/-- Python truthiness of `True`/`False`/`None`, as `if send_message(...):`
evaluates it. -/
def truthyOpt : Option Bool → Bool
  | some b => b
  | none => false

/-- What the network returns for one `requests.get` call: `exn` models a
raised `requests.RequestException`; `resp code body` an HTTP response whose
body decodes to the given value, or fails to decode (`.error m` carries the
decoder's message). -/
inductive NetResult where
  | exn
  | resp (code : Nat) (body : Except String PyValue)

/-- `get_api_answer` (homework.py lines 73-99), as a function of the
network's behaviour for the single GET it performs. -/
def get_api_answer (net : NetResult) : Except PyExc PyValue :=
  match net with
  | .exn =>
      .error (.connectionError
        ("Эндпоинт [" ++ ENDPOINT ++ "] недоступен.\n>>> Нет соединения с сервером."))
  | .resp code body =>
      if code ≠ 200 then
        .error (.failedRequest
          ("Эндпоинт [" ++ ENDPOINT ++ "] недоступен.\n>>> Код ответа API: ["
            ++ toString code ++ "]."))
      else
        match body with
        | .error m =>
            .error (.jsonDecodeError
              ("Ответ не соответствует ожидаемому типу данных: <type no JSON>\n>>> " ++ m))
        | .ok v => .ok v

/-- `check_response` (homework.py lines 102-118). -/
def check_response (response : PyValue) : Except PyExc PyValue :=
  match response with
  | .pyDict kvs =>
      match dictGet kvs "homeworks" with
      | none => .error (.keyError "Ответ не содержит ключа \"homeworks\"")
      | some hw =>
          match hw with
          | .pyList xs =>
              match xs with
              | [] => .error (.noHomework "Список домашних работ пуст.")
              | x :: _ => .ok x
          | _ => .error (.typeError
                  "Ответ не соответствует ожидаемому типу данных: <type no list>")
  | _ => .error (.typeError
          "Ответ не соответствует ожидаемому типу данных: <type no dict>")

/-- Python subscripting `v[key]` with a string key: on a dict it returns the
binding or raises `KeyError(key)`; on any other value it raises a
`TypeError` (whose exact message depends on the value's type; no theorem
below inspects it). -/
def subscript (v : PyValue) (key : String) : Except PyExc PyValue :=
  match v with
  | .pyDict kvs =>
      match dictGet kvs key with
      | some x => .ok x
      | none => .error (.keyError key)
  | _ => .error (.typeError "object is not subscriptable with a string key")

/-- `parse_status` (homework.py lines 121-140).  Each `try/except KeyError`
replaces a `KeyError` from the lookup with one carrying the program's own
message and lets any other exception through. -/
def parse_status (homework : PyValue) : Except PyExc String :=
  match subscript homework "status" with
  | .error (.keyError _) => .error (.keyError "Нет ключа \"status\"")
  | .error e => .error e
  | .ok status =>
    match subscript homework "homework_name" with
    | .error (.keyError _) => .error (.keyError "Нет ключа \"homework_name\"")
    | .error e => .error e
    | .ok homework_name =>
      match dictGet HOMEWORK_VERDICTS (pyStrOf status) with
      | none => .error (.keyError
          ("Неожиданный статус домашней работы: " ++ pyStrOf status))
      | some verdict =>
          .ok ("Изменился статус проверки работы \"" ++ pyStrOf homework_name
                ++ "\".\n>>> " ++ verdict)

/-- The observable actions of one program run that the claims talk about:
the HTTP GET with its `from_date` parameter, each invocation of
`bot.send_message` (the Notifier) with its text, the `time.sleep` call, and
the critical log emitted on the fatal configuration path.  Routine
debug/info/error logging is not tracked. -/
inductive Act where
  | apiCall (from_date : Int)
  | sendMsg (text : String)
  | sleep (secs : Nat)
  | logCritical
deriving DecidableEq

/-- `last_msg` (homework.py line 151): the dictionary holding the last sent
status message (key `message`) and the last sent error report (key
`error`); `none` models an absent key, as `last_msg.get(..)` sees it. -/
structure LastMsg where
  message : Option String
  error : Option String
deriving DecidableEq

/-- The external world's behaviour during one loop iteration: what the one
`requests.get` returns, and what `bot.send_message` does if it is invoked
(at most one invocation happens per iteration). -/
structure Oracle where
  net : NetResult
  send : Except String Unit

/-- Lines 155-157 of `main`: the try-block pipeline
`get_api_answer` → `check_response` → `parse_status`; the first raised
exception short-circuits to the `except` clause (`Except.error`). -/
def iterMessage (net : NetResult) : Except PyExc String := do
  let response ← get_api_answer net
  let homework ← check_response response
  parse_status homework

/-- The error report built at homework.py line 165:
`f'Сбой в работе программы: {error}'`. -/
def loopErrMsg (e : PyExc) : String :=
  "Сбой в работе программы: " ++ excStr e

/-- The body of one `while True` iteration after the initial API call
(homework.py lines 154-170): the state update of `last_msg` and the list of
Notifier invocations.  On the success path the message is compared with
`last_msg.get('message')` (a skip emits nothing and `continue`s); otherwise
`send_message` is invoked and, only if it returned a truthy value, the
state is updated.  The `except Exception` path does the same with the error
report against `last_msg.get('error')`. -/
def tryBody (o : Oracle) (st : LastMsg) : LastMsg × List Act :=
  match iterMessage o.net with
  | .ok message =>
      if st.message = some message then (st, [])
      else if truthyOpt (send_message o.send) then
        ({ st with message := some message }, [Act.sendMsg message])
      else (st, [Act.sendMsg message])
  | .error e =>
      let message := loopErrMsg e
      if st.error = some message then (st, [])
      else if truthyOpt (send_message o.send) then
        ({ st with error := some message }, [Act.sendMsg message])
      else (st, [Act.sendMsg message])

/-- One full iteration of the `while True` loop (homework.py lines
153-173): the iteration opens with the API call carrying the loop's
`timestamp`, runs the body, and the `finally` clause appends the
unconditional `time.sleep(RETRY_PERIOD)` — also on the `continue` paths. -/
def loopIter (timestamp : Int) (o : Oracle) (st : LastMsg) : LastMsg × List Act :=
  ((tryBody o st).1,
    Act.apiCall timestamp :: (tryBody o st).2 ++ [Act.sleep RETRY_PERIOD])

/-- A finite prefix of the infinite loop, one oracle per iteration.  The
`timestamp` argument is threaded unchanged: `main` assigns it once before
the loop (line 150) and never reassigns it. -/
def runLoop (timestamp : Int) (os : List Oracle) (st : LastMsg) : LastMsg × List Act :=
  match os with
  | [] => (st, [])
  | o :: rest =>
      let p := loopIter timestamp o st
      let q := runLoop timestamp rest p.1
      (q.1, p.2 ++ q.2)

/-- Whether the process has exited (with which code) or is still looping
(with the loop state reached so far). -/
inductive ProcOutcome where
  | exited (code : Nat)
  | running (st : LastMsg)

/-- `main` (homework.py lines 143-173): the startup check, then — only if
it passes — the loop from the startup timestamp `int(time.time())
= startTime` with empty `last_msg`.  On a missing secret, `check_tokens`
logs a critical message and the process exits with code 1 before any
network call. -/
def mainRun (cfg : Config) (startTime : Int) (os : List Oracle) :
    ProcOutcome × List Act :=
  match check_tokens cfg with
  | .exit1 => (.exited 1, [Act.logCritical])
  | .ok =>
      let p := runLoop startTime os ⟨none, none⟩
      (.running p.1, p.2)

/-- Number of Notifier invocations carrying exactly the given text. -/
def countSend (m : String) : List Act → Nat
  | [] => 0
  | Act.sendMsg s :: rest => (if s = m then 1 else 0) + countSend m rest
  | _ :: rest => countSend m rest

/-- The `from_date` parameters of the API calls of a run, in order. -/
def fromDates (acts : List Act) : List Int :=
  acts.filterMap fun a =>
    match a with
    | Act.apiCall f => some f
    | _ => none

/-- Whether `check_response` failed with a schema error in the spec's
taxonomy: the `TypeError`/`KeyError` cases, as opposed to `NoHomework` or
success. -/
def schemaErr : Except PyExc PyValue → Bool
  | .error (.typeError _) => true
  | .error (.keyError _) => true
  | _ => false

/-- Shape test: is the payload a Python dict (`isinstance(response, dict)`). -/
def isDict : PyValue → Bool
  | .pyDict _ => true
  | _ => false

/-- Shape test: is the value a Python list (`isinstance(.., list)`). -/
def isList : PyValue → Bool
  | .pyList _ => true
  | _ => false

/-- The `homeworks` field of a payload, when the payload is a dict that has
one. -/
def homeworksField : PyValue → Option PyValue
  | .pyDict kvs => dictGet kvs "homeworks"
  | _ => none

/-- A network behaviour delivering one submission record with status
`approved` and name `hw1`: HTTP 200, well-formed body. -/
def netApproved : NetResult :=
  .resp 200 (.ok (.pyDict [("homeworks",
    .pyList [.pyDict [("status", .pyStr "approved"),
                      ("homework_name", .pyStr "hw1")]])]))

/-- The message `parse_status` formats for the `netApproved` record. -/
def msgApproved : String :=
  "Изменился статус проверки работы \"hw1\".\n>>> Работа проверена: ревьюеру всё понравилось. Ура!"

/-- A network behaviour delivering an empty `homeworks` list: HTTP 200,
well-formed body, no submissions. -/
def netEmpty : NetResult :=
  .resp 200 (.ok (.pyDict [("homeworks", .pyList [])]))

/-- The error report the loop builds when `check_response` raises
`NoHomework` on an empty list. -/
def msgEmpty : String :=
  "Сбой в работе программы: Список домашних работ пуст."

/-! ### Helper lemmas -/

/-- `truthyOpt` of a `send_message` result is `true` exactly on success. -/
theorem truthyOpt_send (tr : Except String Unit) :
    truthyOpt (send_message tr) = true ↔ send_message tr = some true := by
  cases tr <;> simp [send_message, truthyOpt]

/-- Character membership distributes over string concatenation. -/
theorem hasChar_append (s t : String) (c : Char) :
    hasChar (s ++ t) c = (hasChar s c || hasChar t c) := by
  simp [hasChar, String.data_append, List.contains_eq_any_beq, List.any_append]

/-- Quote escaping is the identity on a quote-free character list. -/
theorem escapeSingleQuotes_id (l : List Char) (h : squote ∉ l) :
    escapeSingleQuotes l = l := by
  induction l with
  | nil => rfl
  | cons c cs ih =>
      rw [List.mem_cons, not_or] at h
      rw [escapeSingleQuotes, if_neg (fun hc : c = squote => h.1 hc.symm), ih h.2]

/-- Python repr of a quote-free string just wraps it in single quotes. -/
theorem pyStrRepr_no_squote (s : String) (h : hasChar s squote = false) :
    pyStrRepr s = "\x27" ++ s ++ "\x27" := by
  have hm : squote ∉ s.data := by
    intro hmem
    rw [hasChar] at h
    simp at h
    exact h hmem
  rw [pyStrRepr, h, escapeSingleQuotes_id s.data hm]
  rfl

/-- `countSend` distributes over list concatenation. -/
theorem countSend_append (m : String) (l₁ l₂ : List Act) :
    countSend m (l₁ ++ l₂) = countSend m l₁ + countSend m l₂ := by
  induction l₁ with
  | nil => simp [countSend]
  | cons a rest ih => cases a <;> simp [countSend, ih, Nat.add_assoc]

/-- An iteration's Notifier invocations are exactly those of its body. -/
theorem countSend_loopIter (m : String) (t : Int) (o : Oracle) (st : LastMsg) :
    countSend m (loopIter t o st).2 = countSend m (tryBody o st).2 := by
  show countSend m (Act.apiCall t :: ((tryBody o st).2 ++ [Act.sleep RETRY_PERIOD])) = _
  rw [show Act.apiCall t :: ((tryBody o st).2 ++ [Act.sleep RETRY_PERIOD])
      = [Act.apiCall t] ++ ((tryBody o st).2 ++ [Act.sleep RETRY_PERIOD]) from rfl]
  rw [countSend_append, countSend_append]
  simp [countSend]

/-- `fromDates` distributes over list concatenation. -/
theorem fromDates_append (l₁ l₂ : List Act) :
    fromDates (l₁ ++ l₂) = fromDates l₁ ++ fromDates l₂ := by
  induction l₁ with
  | nil => rfl
  | cons a rest ih => cases a <;> simp [fromDates, ih]

/-- The loop body performs no API call of its own. -/
theorem fromDates_tryBody (o : Oracle) (st : LastMsg) :
    fromDates (tryBody o st).2 = [] := by
  rw [tryBody]
  cases iterMessage o.net <;> dsimp <;> split <;> try rfl
  all_goals split <;> rfl

/-- Each iteration performs exactly one API call, carrying its `timestamp`
argument. -/
theorem fromDates_loopIter (t : Int) (o : Oracle) (st : LastMsg) :
    fromDates (loopIter t o st).2 = [t] := by
  show fromDates (Act.apiCall t :: ((tryBody o st).2 ++ [Act.sleep RETRY_PERIOD])) = [t]
  rw [show Act.apiCall t :: ((tryBody o st).2 ++ [Act.sleep RETRY_PERIOD])
      = [Act.apiCall t] ++ ((tryBody o st).2 ++ [Act.sleep RETRY_PERIOD]) from rfl]
  rw [fromDates_append, fromDates_append, fromDates_tryBody]
  rfl

/-! ### Claims -/

/-- C9: every loop iteration ends with `time.sleep(RETRY_PERIOD)` before
the next one begins, on every control path — the successful-notification
path, the duplicate-message and duplicate-error `continue` paths, and every
caught exception: the `finally` clause makes the sleep the iteration's last
action for every oracle and every state. -/
theorem c9_sleep_ends_every_iteration (t : Int) (o : Oracle) (st : LastMsg) :
    (loopIter t o st).2.getLast? = some (Act.sleep RETRY_PERIOD) := by
  show (Act.apiCall t :: ((tryBody o st).2 ++ [Act.sleep RETRY_PERIOD])).getLast? = _
  rw [← List.cons_append, List.getLast?_concat]

/-- C3 counterexample: `send_message` does not return a boolean in the
failure case — the Python function only returns `True` on success and falls
off the end on failure, so the transport-failure case yields `None`, not a
boolean. -/
theorem c3_counterexample :
    send_message (Except.error "boom") = none ∧
    send_message (Except.ok ()) = some true := ⟨rfl, rfl⟩

/-- C3 (amended): for every transport outcome `send_message` returns
without propagating the exception; it returns the boolean `True` exactly
when delivery succeeded, and `None` (falsy, but not a boolean) exactly when
the transport raised. -/
theorem c3_amended_send_message_result (tr : Except String Unit) :
    (send_message tr = some true ↔ ∃ u, tr = Except.ok u) ∧
    (send_message tr = none ↔ ∃ e, tr = Except.error e) := by
  cases tr <;> simp [send_message]

/-- C10: `check_tokens` tests truthiness of the loaded value, so every
falsy value is treated as a missing secret: the process aborts with exit
code 1 not only when a secret variable is unset (`None`) but also when it
is set to the empty string. -/
theorem c10_empty_secret_aborts :
    (∀ v : Option String, truthyEnv v = false ↔ (v = none ∨ v = some "")) ∧
    (∀ (cfg : Config) (t : Int) (os : List Oracle),
      (cfg.PRACTICUM_TOKEN = none ∨ cfg.PRACTICUM_TOKEN = some "" ∨
       cfg.TELEGRAM_TOKEN = none ∨ cfg.TELEGRAM_TOKEN = some "" ∨
       cfg.TELEGRAM_CHAT_ID = none ∨ cfg.TELEGRAM_CHAT_ID = some "") →
      check_tokens cfg = .exit1 ∧ (mainRun cfg t os).1 = .exited 1) := by
  constructor
  · intro v
    cases v with
    | none => simp [truthyEnv]
    | some s => by_cases h : s = "" <;> simp [truthyEnv, h]
  · intro cfg t os h
    have hc : check_tokens cfg = .exit1 := by
      rcases h with h | h | h | h | h | h <;> simp [check_tokens, h, truthyEnv]
    exact ⟨hc, by simp [mainRun, hc]⟩

/-- C10 witness: a configuration whose bot token is set but empty aborts. -/
theorem c10_witness :
    check_tokens ⟨some "x", some "", some "y"⟩ = .exit1 ∧
    (mainRun ⟨some "x", some "", some "y"⟩ 0 []).1 = .exited 1 :=
  c10_empty_secret_aborts.2 ⟨some "x", some "", some "y"⟩ 0 []
    (Or.inr (Or.inr (Or.inr (Or.inl rfl))))

/-- C7: if any one of the three secrets is absent, the startup check logs a
critical message and the process terminates with exit code 1, before any
network call occurs: the run's only action is the critical log, and no API
call is ever performed. -/
theorem c7_missing_secret_terminates (cfg : Config) (t : Int) (os : List Oracle)
    (h : cfg.PRACTICUM_TOKEN = none ∨ cfg.TELEGRAM_TOKEN = none ∨
         cfg.TELEGRAM_CHAT_ID = none) :
    (mainRun cfg t os).1 = .exited 1 ∧
    (mainRun cfg t os).2 = [Act.logCritical] ∧
    ∀ f, Act.apiCall f ∉ (mainRun cfg t os).2 := by
  have hc : check_tokens cfg = .exit1 := by
    rcases h with h | h | h <;> simp [check_tokens, h, truthyEnv]
  refine ⟨by simp [mainRun, hc], by simp [mainRun, hc], ?_⟩
  intro f
  simp [mainRun, hc]

/-- C7 witness: with `PRACTICUM_TOKEN` unset, a run that would otherwise
poll once exits with code 1, emitting only the critical log. -/
theorem c7_witness :
    (mainRun ⟨none, some "b", some "c"⟩ 0 [⟨netEmpty, Except.ok ()⟩]).1 = .exited 1 ∧
    (mainRun ⟨none, some "b", some "c"⟩ 0 [⟨netEmpty, Except.ok ()⟩]).2 = [Act.logCritical] :=
  ⟨(c7_missing_secret_terminates ⟨none, some "b", some "c"⟩ 0 [⟨netEmpty, Except.ok ()⟩]
      (Or.inl rfl)).1,
   (c7_missing_secret_terminates ⟨none, some "b", some "c"⟩ 0 [⟨netEmpty, Except.ok ()⟩]
      (Or.inl rfl)).2.1⟩

/-- C2 counterexample: a two-iteration run started at timestamp 1000.  By
the second iteration at least one `RETRY_PERIOD` has elapsed, so a call
with the current timestamp would carry a larger `from_date`; but both API
calls carry 1000 — the parameter stays at its startup value instead of
advancing. -/
theorem c2_counterexample :
    fromDates (runLoop 1000 [⟨NetResult.exn, Except.ok ()⟩,
      ⟨NetResult.exn, Except.ok ()⟩] ⟨none, none⟩).2 = [1000, 1000] := rfl

/-- C2 (amended): every loop iteration calls the API Client exactly once,
and every such call carries the Unix timestamp captured once at startup
(`timestamp = int(time.time())` before the loop, never reassigned): the
`from_date` lower bound never advances. -/
theorem c2_amended_from_date_constant (t : Int) (os : List Oracle) (st : LastMsg) :
    fromDates (runLoop t os st).2 = List.replicate os.length t := by
  induction os generalizing st with
  | nil => rfl
  | cons o rest ih =>
      show fromDates ((loopIter t o st).2 ++ (runLoop t rest (loopIter t o st).1).2) = _
      rw [fromDates_append, fromDates_loopIter, ih]
      rfl

/-- C6: `check_response` fails with a schema error (a `TypeError` or
`KeyError`, the spec's `SchemaError` class) exactly when the payload is not
a dict, lacks a `homeworks` key, or carries a non-list `homeworks` value;
and for every dict payload whose `homeworks` value is a non-empty list it
returns element 0 of that list unmodified. -/
theorem c6_check_response_schema (response : PyValue) :
    (schemaErr (check_response response) = true ↔
      (isDict response = false ∨ homeworksField response = none ∨
        ∃ v, homeworksField response = some v ∧ isList v = false)) ∧
    (∀ (x : PyValue) (rest : List PyValue),
      homeworksField response = some (.pyList (x :: rest)) →
      check_response response = .ok x) := by
  cases response with
  | pyDict kvs =>
      cases h : dictGet kvs "homeworks" with
      | none => simp [check_response, schemaErr, isDict, homeworksField, h]
      | some v =>
          cases v with
          | pyList xs =>
              cases xs with
              | nil =>
                  simp [check_response, schemaErr, isDict, homeworksField, isList, h]
              | cons y ys =>
                  constructor
                  · simp [check_response, schemaErr, isDict, homeworksField, isList, h]
                  · intro x rest hx
                    rw [homeworksField, h] at hx
                    simp only [Option.some.injEq, PyValue.pyList.injEq] at hx
                    simp [check_response, h, hx]
          | pyNone => simp [check_response, schemaErr, isDict, homeworksField, isList, h]
          | pyBool b => simp [check_response, schemaErr, isDict, homeworksField, isList, h]
          | pyInt n => simp [check_response, schemaErr, isDict, homeworksField, isList, h]
          | pyStr s => simp [check_response, schemaErr, isDict, homeworksField, isList, h]
          | pyDict kvs2 => simp [check_response, schemaErr, isDict, homeworksField, isList, h]
  | pyNone => simp [check_response, schemaErr, isDict, homeworksField]
  | pyBool b => simp [check_response, schemaErr, isDict, homeworksField]
  | pyInt n => simp [check_response, schemaErr, isDict, homeworksField]
  | pyStr s => simp [check_response, schemaErr, isDict, homeworksField]
  | pyList xs => simp [check_response, schemaErr, isDict, homeworksField]

/-- C6 witness: a payload whose `homeworks` list is non-empty yields its
first element unmodified. -/
theorem c6_witness :
    check_response (.pyDict [("homeworks", .pyList [.pyInt 7, .pyInt 8])]) =
      .ok (.pyInt 7) :=
  (c6_check_response_schema _).2 (.pyInt 7) [.pyInt 8] rfl

/-- C5: Notification State is updated only on successful delivery.  If the
transport would fail, the iteration leaves the state exactly as it was; a
changed last-sent message (resp. last-sent error) field implies
`send_message` returned `True`, the new field value is exactly the text the
Notifier was invoked with, and the other field is untouched. -/
theorem c5_state_update_needs_success (t : Int) (o : Oracle) (st : LastMsg) :
    (truthyOpt (send_message o.send) = false → (loopIter t o st).1 = st) ∧
    ((loopIter t o st).1.message ≠ st.message →
      send_message o.send = some true ∧
      ∃ m, (loopIter t o st).1.message = some m ∧
        Act.sendMsg m ∈ (loopIter t o st).2 ∧
        (loopIter t o st).1.error = st.error) ∧
    ((loopIter t o st).1.error ≠ st.error →
      send_message o.send = some true ∧
      ∃ m, (loopIter t o st).1.error = some m ∧
        Act.sendMsg m ∈ (loopIter t o st).2 ∧
        (loopIter t o st).1.message = st.message) := by
  cases hIM : iterMessage o.net with
  | ok m =>
      by_cases h1 : st.message = some m
      · refine ⟨fun _ => ?_, fun hne => absurd ?_ hne, fun hne => absurd ?_ hne⟩ <;>
          simp [loopIter, tryBody, hIM, h1]
      · by_cases h2 : truthyOpt (send_message o.send) = true
        · have hs : send_message o.send = some true := (truthyOpt_send o.send).1 h2
          refine ⟨fun hf => ?_, fun _ => ⟨hs, m, ?_, ?_, ?_⟩, fun hne => absurd ?_ hne⟩
          · rw [hf] at h2; cases h2
          all_goals simp [loopIter, tryBody, hIM, h1, h2]
        · have h2f : truthyOpt (send_message o.send) = false := by
            cases hx : truthyOpt (send_message o.send)
            · rfl
            · exact absurd hx h2
          refine ⟨fun _ => ?_, fun hne => absurd ?_ hne, fun hne => absurd ?_ hne⟩ <;>
            simp [loopIter, tryBody, hIM, h1, h2f]
  | error e =>
      by_cases h1 : st.error = some (loopErrMsg e)
      · refine ⟨fun _ => ?_, fun hne => absurd ?_ hne, fun hne => absurd ?_ hne⟩ <;>
          simp [loopIter, tryBody, hIM, h1]
      · by_cases h2 : truthyOpt (send_message o.send) = true
        · have hs : send_message o.send = some true := (truthyOpt_send o.send).1 h2
          refine ⟨fun hf => ?_, fun hne => absurd ?_ hne,
            fun _ => ⟨hs, loopErrMsg e, ?_, ?_, ?_⟩⟩
          · rw [hf] at h2; cases h2
          all_goals simp [loopIter, tryBody, hIM, h1, h2]
        · have h2f : truthyOpt (send_message o.send) = false := by
            cases hx : truthyOpt (send_message o.send)
            · rfl
            · exact absurd hx h2
          refine ⟨fun _ => ?_, fun hne => absurd ?_ hne, fun hne => absurd ?_ hne⟩ <;>
            simp [loopIter, tryBody, hIM, h1, h2f]

/-- C5 witness: a failed delivery of a fresh status message leaves both
Notification State fields unchanged. -/
theorem c5_witness :
    (loopIter 0 ⟨netApproved, Except.error "down"⟩ ⟨none, none⟩).1 =
      (⟨none, none⟩ : LastMsg) :=
  (c5_state_update_needs_success 0 ⟨netApproved, Except.error "down"⟩ ⟨none, none⟩).1 rfl

/-- C1 counterexample: an iteration receiving an empty `homeworks` list
over a working transport does produce a notification (the Notifier is
invoked with the error report built from `NoHomework`) and does change
Notification State (the last-sent error is set): the exception is caught by
the loop's generic `except Exception` handler, not merely logged. -/
theorem c1_counterexample :
    Act.sendMsg msgEmpty ∈ (loopIter 0 ⟨netEmpty, Except.ok ()⟩ ⟨none, none⟩).2 ∧
    (loopIter 0 ⟨netEmpty, Except.ok ()⟩ ⟨none, none⟩).1.error = some msgEmpty := by
  refine ⟨?_, rfl⟩
  rw [show (loopIter 0 ⟨netEmpty, Except.ok ()⟩ ⟨none, none⟩).2 =
    [Act.apiCall 0, Act.sendMsg msgEmpty, Act.sleep RETRY_PERIOD] from rfl]
  simp

/-- C1 (amended): every validated response whose `homeworks` value is the
empty list — any dict payload, extra keys such as the API's `current_date`
allowed — raises `NoHomework`, which the generic `except Exception` handler
of the loop treats like any failure.  The last-sent message field is
untouched, but the condition is reported through the error path: if the
report equals the last-sent error the iteration only logs and skips,
otherwise the Notifier is invoked with `msgEmpty` and the last-sent error
is updated exactly on successful delivery. -/
theorem c1_amended_empty_list_reported (t : Int) (o : Oracle) (st : LastMsg)
    (kvs : List (String × PyValue))
    (h : o.net = .resp 200 (Except.ok (.pyDict kvs)))
    (hk : dictGet kvs "homeworks" = some (.pyList [])) :
    ((loopIter t o st).1.message = st.message) ∧
    (st.error = some msgEmpty →
      loopIter t o st = (st, [Act.apiCall t, Act.sleep RETRY_PERIOD])) ∧
    (st.error ≠ some msgEmpty →
      (loopIter t o st).2 =
        [Act.apiCall t, Act.sendMsg msgEmpty, Act.sleep RETRY_PERIOD] ∧
      (loopIter t o st).1.error =
        (if truthyOpt (send_message o.send) then some msgEmpty else st.error)) := by
  have hcr : check_response (.pyDict kvs) =
      .error (.noHomework "Список домашних работ пуст.") := by
    simp [check_response, hk]
  have hIM : iterMessage o.net = .error (.noHomework "Список домашних работ пуст.") := by
    rw [h, show iterMessage (NetResult.resp 200 (Except.ok (.pyDict kvs)))
        = check_response (.pyDict kvs) >>= parse_status from rfl, hcr]
    rfl
  have hmsg : loopErrMsg (.noHomework "Список домашних работ пуст.") = msgEmpty := rfl
  by_cases hd : st.error = some msgEmpty
  · refine ⟨?_, fun _ => ?_, fun hne => absurd hd hne⟩ <;>
      simp [loopIter, tryBody, hIM, hmsg, hd]
  · refine ⟨?_, fun heq => absurd heq hd, fun _ => ⟨?_, ?_⟩⟩ <;>
      cases hb : truthyOpt (send_message o.send) <;>
        simp [loopIter, tryBody, hIM, hmsg, hd, hb]

/-- C1 amended witness: from a fresh state, the empty-list iteration over a
working transport emits exactly the API call, the error notification and
the sleep. -/
theorem c1_amended_witness :
    (loopIter 0 ⟨netEmpty, Except.ok ()⟩ ⟨none, none⟩).2 =
      [Act.apiCall 0, Act.sendMsg msgEmpty, Act.sleep RETRY_PERIOD] :=
  ((c1_amended_empty_list_reported 0 ⟨netEmpty, Except.ok ()⟩ ⟨none, none⟩
    [("homeworks", .pyList [])] rfl rfl).2.2 (by simp [msgEmpty])).1

/-- C4 counterexample: two consecutive iterations format the identical
message while the first delivery attempt fails; `last_msg` is then not
updated, so the second iteration does not recognise the duplicate and the
Notifier is invoked twice with that message across the two iterations. -/
theorem c4_counterexample :
    countSend msgApproved (runLoop 0 [⟨netApproved, Except.error "fail"⟩,
      ⟨netApproved, Except.error "fail"⟩] ⟨none, none⟩).2 = 2 := rfl

/-- C4 (amended): across two consecutive iterations formatting the
identical message, the Notifier is invoked at most once only when the first
delivery attempt succeeded (or the message was already the last sent one);
after a failed first delivery, the last-sent message is unchanged and the
second iteration invokes the Notifier again with the same message. -/
theorem c4_amended_retry_after_failed_delivery (t : Int) (o1 o2 : Oracle)
    (st : LastMsg) (m : String)
    (h1 : iterMessage o1.net = .ok m) (h2 : iterMessage o2.net = .ok m) :
    countSend m (runLoop t [o1, o2] st).2 =
      if st.message = some m then 0
      else if truthyOpt (send_message o1.send) then 1 else 2 := by
  show countSend m ((loopIter t o1 st).2 ++
      ((loopIter t o2 (loopIter t o1 st).1).2 ++ [])) = _
  rw [List.append_nil, countSend_append, countSend_loopIter, countSend_loopIter]
  by_cases hm : st.message = some m
  · rw [show (loopIter t o1 st).1 = st from by simp [loopIter, tryBody, h1, hm]]
    simp [tryBody, h1, h2, hm, countSend]
  · cases hs : truthyOpt (send_message o1.send) with
    | true =>
        rw [show (loopIter t o1 st).1 = { st with message := some m } from by
          simp [loopIter, tryBody, h1, hm, hs]]
        simp [tryBody, h1, h2, hm, hs, countSend]
    | false =>
        rw [show (loopIter t o1 st).1 = st from by
          simp [loopIter, tryBody, h1, hm, hs]]
        cases hs2 : truthyOpt (send_message o2.send) <;>
          simp [tryBody, h1, h2, hm, hs, hs2, countSend]

/-- C4 amended witness: when the first delivery succeeds, the identical
second message is skipped and the Notifier runs once in total. -/
theorem c4_amended_witness :
    countSend msgApproved (runLoop 0 [⟨netApproved, Except.ok ()⟩,
      ⟨netApproved, Except.ok ()⟩] ⟨none, none⟩).2 = 1 := by
  have h := c4_amended_retry_after_failed_delivery 0 ⟨netApproved, Except.ok ()⟩
    ⟨netApproved, Except.ok ()⟩ ⟨none, none⟩ msgApproved rfl rfl
  simpa [send_message, truthyOpt] using h

/-- C8: a submission record carrying `status` and `homework_name` whose
status is not a key of `HOMEWORK_VERDICTS` makes `parse_status` fail with a
`KeyError` whose text contains the offending status, and a loop iteration
receiving that record reports it: the Notifier is invoked with the error
report, whose text contains the offending status string.  (The quote-free
hypothesis on `status` only rules out Python repr escaping inside the
report.) -/
theorem c8_unknown_status_reported (t : Int) (kvs : List (String × PyValue))
    (status name : String) (sendO : Except String Unit) (st : LastMsg)
    (hs : dictGet kvs "status" = some (.pyStr status))
    (hn : dictGet kvs "homework_name" = some (.pyStr name))
    (hv : dictGet HOMEWORK_VERDICTS status = none)
    (hq : hasChar status squote = false)
    (hst : st.error ≠ some (loopErrMsg (.keyError
        ("Неожиданный статус домашней работы: " ++ status)))) :
    parse_status (.pyDict kvs) =
      .error (.keyError ("Неожиданный статус домашней работы: " ++ status)) ∧
    Act.sendMsg (loopErrMsg (.keyError
        ("Неожиданный статус домашней работы: " ++ status))) ∈
      (loopIter t ⟨.resp 200 (Except.ok (.pyDict [("homeworks",
        .pyList [.pyDict kvs])])), sendO⟩ st).2 ∧
    status.data <:+:
      (loopErrMsg (.keyError
        ("Неожиданный статус домашней работы: " ++ status))).data := by
  have hps : parse_status (.pyDict kvs) =
      .error (.keyError ("Неожиданный статус домашней работы: " ++ status)) := by
    simp [parse_status, subscript, hs, hn, pyStrOf, hv]
  have hIM : iterMessage (NetResult.resp 200 (Except.ok (.pyDict [("homeworks",
      .pyList [.pyDict kvs])]))) =
      .error (.keyError ("Неожиданный статус домашней работы: " ++ status)) := by
    rw [show iterMessage (NetResult.resp 200 (Except.ok (.pyDict [("homeworks",
      .pyList [.pyDict kvs])]))) = parse_status (.pyDict kvs) from rfl, hps]
  refine ⟨hps, ?_, ?_⟩
  · cases hb : truthyOpt (send_message sendO) <;>
      simp [loopIter, tryBody, hIM, hst, hb]
  · have hrep : pyStrRepr ("Неожиданный статус домашней работы: " ++ status) =
        "\x27" ++ ("Неожиданный статус домашней работы: " ++ status) ++ "\x27" := by
      apply pyStrRepr_no_squote
      rw [hasChar_append, hq]
      rfl
    simp only [loopErrMsg, excStr, hrep]
    refine ⟨("Сбой в работе программы: " ++ "\x27"
        ++ "Неожиданный статус домашней работы: ").data, "\x27".data, ?_⟩
    simp [String.data_append, List.append_assoc]

/-- C8 witness: a record with status `in_progress` (outside the catalog)
triggers the `KeyError` with the status in its text; the fresh-state loop
iteration invokes the Notifier with a report containing `in_progress`. -/
theorem c8_witness :
    parse_status (.pyDict [("status", .pyStr "in_progress"),
        ("homework_name", .pyStr "hw")]) =
      .error (.keyError ("Неожиданный статус домашней работы: " ++ "in_progress")) ∧
    Act.sendMsg (loopErrMsg (.keyError
        ("Неожиданный статус домашней работы: " ++ "in_progress"))) ∈
      (loopIter 0 ⟨.resp 200 (Except.ok (.pyDict [("homeworks",
        .pyList [.pyDict [("status", .pyStr "in_progress"),
          ("homework_name", .pyStr "hw")]])])), Except.ok ()⟩ ⟨none, none⟩).2 ∧
    "in_progress".data <:+:
      (loopErrMsg (.keyError
        ("Неожиданный статус домашней работы: " ++ "in_progress"))).data :=
  c8_unknown_status_reported 0
    [("status", .pyStr "in_progress"), ("homework_name", .pyStr "hw")]
    "in_progress" "hw" (Except.ok ()) ⟨none, none⟩ rfl rfl rfl rfl (by simp)
